import Mathlib

/-!
Shallow embedding of `histogram.py`: a visualization and data-loading
layer for ML experiment result directories.  Tables are modelled as an
ordered list of named columns together with rows of optional rational
cells aligned on an integer step index; the column selector, session
loading/merging, derived-column computations and the plot state
machines are translated function-by-function from the source.
-/

namespace Histogram

/-! ### Substring matching (Python's `in` on strings) -/

/-- Whether the first list is a leading segment of the second
(`needle` occurs at the very start of `hay`). -/
def substrAt : List Char → List Char → Bool
  | [], _ => true
  | _ :: _, [] => false
  | c :: cs, d :: ds => c == d && substrAt cs ds

/-- Whether `needle` occurs contiguously anywhere inside `hay`;
models Python's `needle in hay` on strings. -/
def hasSubstr (needle : List Char) : List Char → Bool
  | [] => substrAt needle []
  | d :: ds => substrAt needle (d :: ds) || hasSubstr needle ds

/-- Case-insensitive fragment match used by `select` and `discard`
(`only_column in column.lower()` after lowering the fragment). -/
def fragMatches (frag col : String) : Bool :=
  hasSubstr frag.toLower.toList col.toLower.toList

/-! ### Tables

A pandas `DataFrame` as the repository uses it: an ordered list of
column names, and rows of `Option ℚ` cells (missing = `none`) keyed by
an integer step index.  `indexName` models `DataFrame.index.name`. -/

/-- Cell of a table: a rational value or missing (`NaN`). -/
abbrev Cell := Option ℚ

structure Table where
  indexName : Option String
  cols : List String
  rows : List (Int × List Cell)
  deriving DecidableEq, Repr

/-- The list of step-index keys of a table (`DataFrame.index`). -/
def Table.keys (t : Table) : List Int := t.rows.map Prod.fst

/-- Position of a named column, if present (`column in data`). -/
def Table.colPos (t : Table) (name : String) : Option Nat :=
  t.cols.findIdx? (fun c => c == name)

/-- Cell of a row at a given column position (missing if out of range). -/
def cellAt (cells : List Cell) (pos : Nat) : Cell :=
  (cells.get? pos).join

/-- Row of a table at a given step index, if present. -/
def Table.lookupRow (t : Table) (k : Int) : Option (List Cell) :=
  (t.rows.find? (fun r => r.1 == k)).map Prod.snd

/-! ### Column selector (`select`, lines 81-103) -/

/-- The column-name list `select` builds: for each fragment (lowered),
scan the table's columns in original order and append each column not
already picked whose lowered name contains the fragment. -/
def selectCols (cols : List String) (only_columns : List String) : List String :=
  only_columns.foldl
    (fun acc f => cols.foldl
      (fun a c => if c ∉ a ∧ fragMatches f c then a ++ [c] else a) acc)
    []

/-- Projection of a table onto a list of column names (pandas
`data[columns]`): keeps the index, reorders/restricts the cells. -/
def Table.projectTo (t : Table) (names : List String) : Table :=
  { indexName := t.indexName
    cols := names
    rows := t.rows.map (fun r =>
      (r.1, names.map (fun n => ((t.colPos n).map (cellAt r.2)).join))) }

/-- `select(data, *only_columns)` (source lines 81-103): with no
fragments, return the table itself (the source returns the very same
object by reference); otherwise project onto `selectCols`.  The
`Session`-unwrapping `isinstance` test is handled at the call sites. -/
def select (data : Table) (only_columns : List String) : Table :=
  if only_columns = [] then data
  else data.projectTo (selectCols data.cols only_columns)

/-- Specification-side helper: keep the first occurrence of each
element of a list, dropping later duplicates. -/
def dedupFirst (l : List String) : List String :=
  l.foldl (fun a c => if c ∈ a then a else a ++ [c]) []

/-! ### Python exceptions

The exception classes the embedded code can raise.  `userException`
models `tools.UserException` (user-facing configuration errors);
`runtimeError` models `RuntimeError` (programming errors);
`attributeError` and `keyError` model the built-in exceptions raised
by attribute access on `None` and by indexing a missing column. -/

inductive PyExc where
  | userException (msg : String)
  | runtimeError (msg : String)
  | attributeError (msg : String)
  | keyError (key : String)
  deriving DecidableEq, Repr

/-! ### `read_csv` call configurations (lines 213-228)

The two log files are read with `pandas.read_csv`; what the source
controls is the separator, the index column, and the extra
missing-value markers added on top of pandas' defaults
(`keep_default_na` is left `True`).  `parseCell` models how one raw
token is classified against the resulting marker set. -/

structure ReadCsvArgs where
  sep : String
  indexCol : Nat
  extraNaValues : List String
  deriving DecidableEq, Repr

/-- Arguments of the `study` read:
`pandas.read_csv(path_study, sep="\t", index_col=0, na_values="     nan")`. -/
def studyReadArgs : ReadCsvArgs :=
  { sep := "\t", indexCol := 0, extraNaValues := ["     nan"] }

/-- Arguments of the `eval` read:
`pandas.read_csv(path_eval, sep="\t", index_col=0)` — note the absence
of the `na_values` argument. -/
def evalReadArgs : ReadCsvArgs :=
  { sep := "\t", indexCol := 0, extraNaValues := [] }

/-- A representative subset of pandas' built-in default NA markers
(exact string match on the token; the padded `"     nan"` is not among
them). -/
def pandasDefaultNa : List String :=
  ["", "#N/A", "N/A", "NA", "NaN", "nan", "NULL", "null"]

/-- The full missing-value marker set of a read call. -/
def naValuesOf (args : ReadCsvArgs) : List String :=
  args.extraNaValues ++ pandasDefaultNa

/-- Classification of one raw cell token under a read call's marker
set: `none` when the token is declared missing, the token otherwise. -/
def parseCell (args : ReadCsvArgs) (tok : String) : Option String :=
  if tok ∈ naValuesOf args then none else some tok

/-! ### Session loading and merging (lines 187-243) -/

/-- Parsed JSON configuration (`config.json`): the keys the code
reads, each optional to model key absence. -/
structure Config where
  dataset : Option String := none
  learning_rate : Option ℚ := none
  learning_rate_decay : Option ℚ := none
  learning_rate_decay_delta : Option Int := none
  gar : Option String := none
  deriving DecidableEq, Repr

/-- Filesystem status of the result path: an existing directory, an
existing non-directory file, or nothing at that path. -/
inductive PathKind where
  | directory
  | file
  | absent
  deriving DecidableEq, Repr

/-- `pathlib.Path.exists()`: true for an existing directory and also
for an existing plain file; false only when nothing exists at the
path. -/
def pathExists : PathKind → Bool
  | PathKind.absent => false
  | _ => true

/-- The on-disk state of one result path: its filesystem status and
the outcomes of the four best-effort reads; `none` means the read
failed (the corresponding `except` branch ran and logged a warning) —
in particular, when `kind` is not a directory every read fails, since
no file can be opened under a non-directory path.  `study`/`eval` hold
the raw parsed tables before the `index.name` assignment. -/
structure ResultDir where
  kind : PathKind
  name : String
  pathStr : String
  config : Option String
  configJson : Option Config
  study : Option Table
  eval : Option Table
  deriving DecidableEq, Repr

/-- In-memory session (`Session.__init__` finalization block). -/
structure Session where
  name : String
  config : Option String
  json : Option Config
  data : Option Table
  deriving DecidableEq, Repr

/-- A session with its table replaced (`self.data = ...`). -/
def Session.withData (s : Session) (d : Option Table) : Session :=
  { s with data := d }

/-- The `data_study.index.name = "Step number"` assignment (also done
for the eval table). -/
def setIndexName (t : Table) : Table :=
  { t with indexName := some "Step number" }

/-- Insertion of an integer into a sorted list. -/
def insertSorted (k : Int) : List Int → List Int
  | [] => [k]
  | x :: xs => if k ≤ x then k :: x :: xs else x :: insertSorted k xs

/-- Insertion sort of integer keys. -/
def sortInts (l : List Int) : List Int := l.foldr insertSorted []

/-- Sorted union of two key lists, as pandas produces for the index of
an outer join of integer-indexed frames. -/
def sortedUnion (a b : List Int) : List Int := sortInts ((a ++ b).dedup)

/-- `a.join(b, how="outer")`: columns of `a` then columns of `b`; the
row set is the sorted union of the two indexes; a key present in only
one operand pads the other operand's cells with missing values. -/
def outerJoin (a b : Table) : Table :=
  { indexName := a.indexName
    cols := a.cols ++ b.cols
    rows := (sortedUnion a.keys b.keys).map (fun k =>
      (k, ((a.lookupRow k).getD (List.replicate a.cols.length none)) ++
          ((b.lookupRow k).getD (List.replicate b.cols.length none)))) }

/-- The merge loop of `Session.__init__` (lines 229-237): first
non-absent frame is taken as is, a second one is outer-joined onto it,
both absent gives an absent table. -/
def mergeData (s e : Option Table) : Option Table :=
  match s, e with
  | none, none => none
  | some t, none => some t
  | none, some t => some t
  | some a, some b => some (outerJoin a b)

/-- The session record built by the final assignment block of
`Session.__init__` (lines 238-243). -/
def sessionOf (dir : ResultDir) (d : Option Table) : Session :=
  { name := dir.name, config := dir.config, json := dir.configJson, data := d }

/-- `Session.__init__` (lines 187-243): the line-196 check is
`if not path_results.exists(): raise tools.UserException(...)` — it
tests bare existence, which an existing non-directory file also
passes; then the best-effort loads (already reflected in the
`ResultDir` fields), index renaming, merge, and field assignment. -/
def sessionLoad (dir : ResultDir) : Except PyExc Session :=
  if pathExists dir.kind = false then
    .error (.userException
      ("Result directory " ++ dir.pathStr ++ " cannot be accessed or does not exist"))
  else
    .ok (sessionOf dir
      (mergeData (dir.study.map setIndexName) (dir.eval.map setIndexName)))

/-! ### Derived-column computations (lines 282-339) -/

/-- The dataset-name to training-set-size dictionary of
`compute_epoch`, with `.get(name, None)` semantics. -/
def trainingSizeOf : String → Option ℚ
  | "mnist" => some 60000
  | "fashionmnist" => some 60000
  | "cifar10" => some 50000
  | "cifar100" => some 50000
  | _ => none

/-- `self.data[column_name] = series` for a series computed row-wise
from the step index and the existing cells: appends one column. -/
def Table.addColByCell (t : Table) (name : String) (f : Int → List Cell → Cell) : Table :=
  { t with
    cols := t.cols ++ [name]
    rows := t.rows.map (fun r => (r.1, r.2 ++ [f r.1 r.2])) }

/-- `Session.compute_epoch` (lines 296-316).  The first statement
reads `self.data.columns`, so an absent table raises
`AttributeError` before any configuration check; a present "Epoch
number" column short-circuits; missing JSON or missing/unknown
"dataset" warns and returns unchanged; otherwise the column is the
"Training point count" column divided by the training-set size. -/
def Session.compute_epoch (s : Session) : Except PyExc Session :=
  match s.data with
  | none => .error (.attributeError "NoneType object has no attribute columns")
  | some t =>
    if "Epoch number" ∈ t.cols then .ok s
    else
      match s.json with
      | none => .ok s
      | some j =>
        match j.dataset with
        | none => .ok s
        | some ds =>
          match trainingSizeOf ds with
          | none => .ok s
          | some sz =>
            match t.colPos "Training point count" with
            | none => .error (.keyError "Training point count")
            | some pos =>
              .ok (s.withData (some (t.addColByCell "Epoch number"
                      (fun _ cells => (cellAt cells pos).map (fun v => v / sz)))))

/-- `Session.compute_lr` (lines 318-339).  Same
`self.data.columns`-first structure; with the "learning_rate" key
present, decay `> 0` produces the staircase
`lr / ((i // delta * delta) / decay + 1)` over the step index `i`
(Python's `//` is floor division, `Int.fdiv`, and numpy's integer
floor division by zero yields 0, as does `Int.fdiv`), and decay `== 0`
(or negative) produces the constant `lr`. -/
def Session.compute_lr (s : Session) : Except PyExc Session :=
  match s.data with
  | none => .error (.attributeError "NoneType object has no attribute columns")
  | some t =>
    if "Learning rate" ∈ t.cols then .ok s
    else
      match s.json with
      | none => .ok s
      | some j =>
        match j.learning_rate with
        | none => .ok s
        | some lr =>
          let lr_decay := j.learning_rate_decay.getD 0
          let lr_delta := j.learning_rate_decay_delta.getD 1
          if 0 < lr_decay then
            .ok (s.withData (some (t.addColByCell "Learning rate"
                    (fun i _ =>
                      some (lr / (((Int.fdiv i lr_delta * lr_delta : ℤ) : ℚ) / lr_decay + 1))))))
          else
            .ok (s.withData (some (t.addColByCell "Learning rate"
                    (fun _ _ => some lr))))

/-- `Session.compute_all` (lines 282-294): runs every `compute_*`
method of the class dictionary except itself — `compute_epoch` then
`compute_lr` in definition order; a raised exception propagates. -/
def Session.compute_all (s : Session) : Except PyExc Session :=
  (s.compute_epoch).bind Session.compute_lr

/-! ### Line plot state machine (lines 346-610)

The protocol-relevant state of a `LinePlot`: whether `finalize` ran
(`_fin`) and whether `close` released the figure (`_fig is None`).
Drawing itself is an effect on the matplotlib figure and carries no
further protocol state. -/

structure LPState where
  fin : Bool
  closed : Bool
  deriving DecidableEq, Repr

/-- Freshly constructed `LinePlot`: not finalized, figure owned. -/
def LinePlot.init : LPState := { fin := false, closed := false }

/-- The guard of `LinePlot.include` (lines 419-421): raises
`RuntimeError` when already finalized, otherwise proceeds to draw. -/
def LinePlot.incl (st : LPState) : Except PyExc LPState :=
  if st.fin then
    .error (.runtimeError "Plot is already finalized and cannot include another line")
  else .ok st

/-- The guard of `LinePlot.include_single` (lines 481-483), identical
to the one of `include`. -/
def LinePlot.inclSingle (st : LPState) : Except PyExc LPState :=
  if st.fin then
    .error (.runtimeError "Plot is already finalized and cannot include another line")
  else .ok st

/-- `LinePlot.finalize` (lines 534-570): fast-path no-op when already
finalized, otherwise decorates the figure and marks finalized. -/
def LinePlot.finalize (st : LPState) : LPState :=
  if st.fin then st else { st with fin := true }

/-- `LinePlot.close` (lines 605-610): releases the figure once;
it does not touch `_fin`. -/
def LinePlot.close (st : LPState) : LPState :=
  if st.closed then st else { st with closed := true }

/-- `LinePlot.save` (lines 585-603): requires finalization, then sets
the figure size to `(xsize * 2.54, ysize * 2.54)` inches via
`set_size_inches` before writing; returns the size passed to
`set_size_inches`. -/
def LinePlot.save (st : LPState) (xsize ysize : ℚ) : Except PyExc (ℚ × ℚ) :=
  if st.fin = false then
    .error (.runtimeError "Cannot display a plot that has not been finalized yet")
  else .ok (xsize * 2.54, ysize * 2.54)

/-! ### Histogram plot state machine (lines 612-716) -/

structure HPState where
  fin : Bool
  closed : Bool
  deriving DecidableEq, Repr

/-- Freshly constructed `HistPlot`. -/
def HistPlot.init : HPState := { fin := false, closed := false }

/-- `HistPlot.include` (lines 634-647): converts the samples and draws
the histogram onto the axes.  It contains no finalization check and
raises nothing. -/
def HistPlot.incl (st : HPState) : Except PyExc HPState := .ok st

/-- `HistPlot.finalize` (lines 649-676): fast-path no-op when already
finalized, otherwise decorates and marks finalized. -/
def HistPlot.finalize (st : HPState) : HPState :=
  if st.fin then st else { st with fin := true }

/-- `HistPlot.close` (lines 711-716). -/
def HistPlot.close (st : HPState) : HPState :=
  if st.closed then st else { st with closed := true }

/-- `HistPlot.save` (lines 691-709): requires finalization, then sets
the figure size to `(xsize * 2.54, ysize * 2.54)` inches via
`set_size_inches` before writing. -/
def HistPlot.save (st : HPState) (xsize ysize : ℚ) : Except PyExc (ℚ × ℚ) :=
  if st.fin = false then
    .error (.runtimeError "Cannot display a plot that has not been finalized yet")
  else .ok (xsize * 2.54, ysize * 2.54)

/-! ### Concrete example data -/

/-- Input table of the `compute_lr` example session. -/
def lrSessionT : Table :=
  { indexName := some "Step number", cols := ["Loss"],
    rows := [(0, [some 1]), (3, [some 2])] }

/-- JSON configuration of the `compute_lr` example session:
`learning_rate = 0.1`, no decay keys (decay defaults to 0). -/
def lrSessionJ : Config := { learning_rate := some (1/10) }

/-- The `compute_lr` example session. -/
def lrSession : Session :=
  { name := "w", config := none, json := some lrSessionJ, data := some lrSessionT }

/-- Expected output table: a constant 0.1 "Learning rate" column. -/
def lrSessionOutT : Table :=
  { indexName := some "Step number", cols := ["Loss", "Learning rate"],
    rows := [(0, [some 1, some (1/10)]), (3, [some 2, some (1/10)])] }

/-- Input table of the `compute_epoch` example session. -/
def epochSessionT : Table :=
  { indexName := some "Step number", cols := ["Training point count"],
    rows := [(0, [some 60000]), (1, [some 120000])] }

/-- JSON configuration of the `compute_epoch` example session. -/
def epochSessionJ : Config := { dataset := some "mnist" }

/-- The `compute_epoch` example session. -/
def epochSession : Session :=
  { name := "w", config := none, json := some epochSessionJ, data := some epochSessionT }

/-- Expected output table: "Epoch number" = [1, 2]. -/
def epochSessionOutT : Table :=
  { indexName := some "Step number", cols := ["Training point count", "Epoch number"],
    rows := [(0, [some 60000, some 1]), (1, [some 120000, some 2])] }

/-- The study table of the merge example directory. -/
def mergeStudyT : Table :=
  { indexName := none, cols := ["Loss"], rows := [(0, [some 1])] }

/-- The merge example directory: an existing directory holding only a
`study` log, no config files. -/
def mergeDir : ResultDir :=
  { kind := PathKind.directory, name := "run1", pathStr := "results/run1",
    config := none, configJson := none, study := some mergeStudyT, eval := none }

/-- The expected session of the merge example: the study table with
its index renamed, no JSON. -/
def mergeOutSession : Session :=
  { name := "run1", config := none, json := none,
    data := some { indexName := some "Step number", cols := ["Loss"],
                   rows := [(0, [some 1])] } }

/-- The eval table of the eval-read example directory. -/
def evalOnlyT : Table :=
  { indexName := none, cols := ["Accuracy"], rows := [(0, [some 1])] }

/-- A directory holding only an `eval` log. -/
def evalOnlyDir : ResultDir :=
  { kind := PathKind.directory, name := "d", pathStr := "results/d",
    config := none, configJson := none, study := none, eval := some evalOnlyT }

/-- The expected session of the eval-only example: the eval table with
its index renamed "Step number". -/
def evalOnlyOutSession : Session :=
  { name := "d", config := none, json := none,
    data := some { indexName := some "Step number", cols := ["Accuracy"],
                   rows := [(0, [some 1])] } }

/-- A session whose merged table is absent. -/
def emptySession : Session :=
  { name := "e", config := none, json := none, data := none }

/-- A result path at which nothing exists. -/
def missingDir : ResultDir :=
  { kind := PathKind.absent, name := "gone", pathStr := "results/gone",
    config := none, configJson := none, study := none, eval := none }

/-- A result path naming an existing plain file (not a directory):
`exists()` is true, and all four reads fail with
`NotADirectoryError`, each caught by its best-effort `except`. -/
def filePathDir : ResultDir :=
  { kind := PathKind.file, name := "notes.txt", pathStr := "results/notes.txt",
    config := none, configJson := none, study := none, eval := none }

/-! ### Selector lemmas -/

theorem mem_dedupStep (a : List String) (c x : String) :
    x ∈ (if c ∈ a then a else a ++ [c]) ↔ x ∈ a ∨ x = c := by
  by_cases h : c ∈ a
  · simp only [if_pos h]
    constructor
    · exact Or.inl
    · rintro (hx | rfl)
      · exact hx
      · exact h
  · simp [if_neg h]

theorem nodup_dedupStep (a : List String) (c : String) (h : a.Nodup) :
    (if c ∈ a then a else a ++ [c]).Nodup := by
  by_cases hc : c ∈ a
  · simpa [if_pos hc]
  · rw [if_neg hc]
    simpa [List.nodup_append] using ⟨h, hc⟩

theorem dedupFoldl_nodup (l : List String) :
    ∀ a : List String, a.Nodup →
      (l.foldl (fun a c => if c ∈ a then a else a ++ [c]) a).Nodup := by
  induction l with
  | nil => intro a h; simpa using h
  | cons c cs ih =>
    intro a h
    exact ih _ (nodup_dedupStep a c h)

theorem mem_dedupFoldl (l : List String) :
    ∀ (a : List String) (x : String),
      x ∈ l.foldl (fun a c => if c ∈ a then a else a ++ [c]) a ↔
        x ∈ a ∨ x ∈ l := by
  induction l with
  | nil => intro a x; simp
  | cons c cs ih =>
    intro a x
    rw [List.foldl_cons, ih, mem_dedupStep]
    constructor
    · rintro ((hx | rfl) | hx)
      · exact Or.inl hx
      · exact Or.inr (List.mem_cons_self _ _)
      · exact Or.inr (List.mem_cons_of_mem _ hx)
    · rintro (hx | hx)
      · exact Or.inl (Or.inl hx)
      · rcases List.mem_cons.mp hx with rfl | hx
        · exact Or.inl (Or.inr rfl)
        · exact Or.inr hx

/-- The inner scan of `selectCols` over one fragment equals the
deduplicating fold over the columns matching that fragment. -/
theorem selectCols_inner_eq_filter (f : String) (cols : List String) :
    ∀ a : List String,
      cols.foldl (fun a c => if c ∉ a ∧ fragMatches f c then a ++ [c] else a) a =
        (cols.filter (fun c => fragMatches f c)).foldl
          (fun a c => if c ∈ a then a else a ++ [c]) a := by
  induction cols with
  | nil => intro a; rfl
  | cons c cs ih =>
    intro a
    by_cases hm : fragMatches f c = true
    · rw [List.foldl_cons, List.filter_cons_of_pos hm, List.foldl_cons]
      by_cases hmem : c ∈ a
      · rw [if_neg (by simp [hmem]), if_pos hmem, ih]
      · rw [if_pos ⟨hmem, hm⟩, if_neg hmem, ih]
    · rw [List.foldl_cons, List.filter_cons_of_neg hm, if_neg (by simp [hm]), ih]

theorem selectCols_foldl_eq (cols frags : List String) :
    ∀ acc : List String,
      frags.foldl
        (fun acc f => cols.foldl
          (fun a c => if c ∉ a ∧ fragMatches f c then a ++ [c] else a) acc)
        acc =
      (frags.flatMap (fun f => cols.filter (fun c => fragMatches f c))).foldl
        (fun a c => if c ∈ a then a else a ++ [c]) acc := by
  induction frags with
  | nil => intro acc; rfl
  | cons f fs ih =>
    intro acc
    rw [List.foldl_cons, List.flatMap_cons, List.foldl_append,
      selectCols_inner_eq_filter, ih]

/-- `selectCols` is exactly the first-occurrence deduplication of the
per-fragment filtered column lists, concatenated in fragment order. -/
theorem selectCols_eq_dedupFirst (cols frags : List String) :
    selectCols cols frags =
      dedupFirst (frags.flatMap (fun f => cols.filter (fun c => fragMatches f c))) := by
  unfold selectCols dedupFirst
  exact selectCols_foldl_eq cols frags []

/-! ### General helper lemmas -/

/-- Python's floor division `i // d` (`Int.fdiv`) computes the
mathematical floor of the rational quotient, for positive `d`. -/
theorem fdiv_eq_floor (i d : Int) (hd : 0 < d) : Int.fdiv i d = ⌊(i : ℚ) / (d : ℚ)⌋ := by
  have hd0 : (0:ℤ) ≤ d := hd.le
  obtain ⟨n, rfl⟩ : ∃ n : ℕ, d = (n : ℤ) := ⟨d.toNat, (Int.toNat_of_nonneg hd0).symm⟩
  rw [Int.fdiv_eq_ediv i hd0]
  rw [show (((n : ℤ) : ℚ)) = ((n : ℕ) : ℚ) by push_cast; ring]
  exact (Rat.floor_intCast_div_natCast i n).symm

theorem mem_insertSorted (k x : Int) :
    ∀ l : List Int, x ∈ insertSorted k l ↔ x = k ∨ x ∈ l := by
  intro l
  induction l with
  | nil => simp [insertSorted]
  | cons c cs ih =>
    by_cases h : k ≤ c
    · simp [insertSorted, if_pos h]
    · simp only [insertSorted, if_neg h, List.mem_cons, ih]
      tauto

theorem mem_sortInts (x : Int) : ∀ l : List Int, x ∈ sortInts l ↔ x ∈ l := by
  intro l
  induction l with
  | nil => simp [sortInts]
  | cons c cs ih =>
    show x ∈ insertSorted c (sortInts cs) ↔ _
    rw [mem_insertSorted, ih]
    simp [eq_comm]

theorem mem_sortedUnion (x : Int) (a b : List Int) :
    x ∈ sortedUnion a b ↔ x ∈ a ∨ x ∈ b := by
  unfold sortedUnion
  rw [mem_sortInts, List.mem_dedup, List.mem_append]

/-- A key outside a table's index has no row. -/
theorem lookupRow_eq_none (t : Table) (k : Int) (h : k ∉ t.keys) :
    t.lookupRow k = none := by
  unfold Table.lookupRow
  rw [List.find?_eq_none.mpr]
  · rfl
  · intro r hr hbeq
    exact h (List.mem_map.mpr ⟨r, hr, by simpa using hbeq⟩)

/-! ### Claim theorems -/

/-- Claim C1 (evaluation of the code at the failing input): on a
finalized plot, `save(path, dpi, xsize=3, ysize=2)` sets the figure
size to `(3 * 2.54, 2 * 2.54) = (7.62, 5.08)` inches — both for
`LinePlot` and `HistPlot` — which is not the claimed cm-to-inch
conversion `(3 / 2.54, 2 / 2.54)`: the code multiplies by 2.54 where
its own docstring ("size in cm") requires dividing. -/
theorem save_size_multiplies_not_divides :
    LinePlot.save (LinePlot.finalize LinePlot.init) 3 2 = Except.ok (7.62, 5.08)
    ∧ HistPlot.save (HistPlot.finalize HistPlot.init) 3 2 = Except.ok (7.62, 5.08)
    ∧ ((7.62 : ℚ), (5.08 : ℚ)) ≠ ((3 : ℚ) / 2.54, (2 : ℚ) / 2.54) := by
  refine ⟨?_, ?_, ?_⟩
  · simp only [LinePlot.save, LinePlot.finalize, LinePlot.init]
    norm_num
  · simp only [HistPlot.save, HistPlot.finalize, HistPlot.init]
    norm_num
  · intro h
    rw [Prod.mk.injEq] at h
    have h1 := h.1
    norm_num at h1

/-- Claim C2: `select` with no fragments returns the table itself;
with fragments it returns the projection onto exactly the columns
whose lowered name contains some lowered fragment as a substring, each
column at most once even when several fragments match it, in
first-seen order across the per-fragment scans of the original column
order. -/
theorem select_spec (t : Table) (f : String) (fs : List String) :
    select t [] = t
    ∧ (select t (f :: fs)).cols = selectCols t.cols (f :: fs)
    ∧ (select t (f :: fs)).rows = t.rows.map (fun r =>
        (r.1, (selectCols t.cols (f :: fs)).map
          (fun n => ((t.colPos n).map (cellAt r.2)).join)))
    ∧ (selectCols t.cols (f :: fs)).Nodup
    ∧ (∀ c, c ∈ selectCols t.cols (f :: fs) ↔
        c ∈ t.cols ∧ ∃ g ∈ (f :: fs), fragMatches g c = true)
    ∧ selectCols t.cols (f :: fs) =
        dedupFirst ((f :: fs).flatMap (fun g => t.cols.filter (fun c => fragMatches g c))) := by
  refine ⟨by simp [select], ?_, ?_, ?_, ?_, selectCols_eq_dedupFirst _ _⟩
  · simp [select, Table.projectTo]
  · simp [select, Table.projectTo]
  · rw [selectCols_eq_dedupFirst]
    exact dedupFoldl_nodup _ [] List.nodup_nil
  · intro c
    rw [selectCols_eq_dedupFirst]
    unfold dedupFirst
    rw [mem_dedupFoldl]
    simp only [List.not_mem_nil, false_or, List.mem_flatMap, List.mem_filter]
    constructor
    · rintro ⟨g, hg, hc, hm⟩
      exact ⟨hc, g, hg, hm⟩
    · rintro ⟨hc, g, hg, hm⟩
      exact ⟨g, hg, hc, hm⟩

/-- Claim C3: with a "learning_rate" key and no pre-existing
"Learning rate" column, `compute_lr` appends the column; with decay
`> 0` (and a positive delta, the default being 1) the value at step
index `i` is `lr / (floor(i / delta) * delta / decay + 1)`, and with
decay `= 0` the column is constantly `lr` on every row. -/
theorem compute_lr_spec (s : Session) (t : Table) (j : Config) (lr : ℚ)
    (hdata : s.data = some t) (hjson : s.json = some j)
    (hlr : j.learning_rate = some lr) (hcol : "Learning rate" ∉ t.cols) :
    (0 < j.learning_rate_decay.getD 0 → 0 < j.learning_rate_decay_delta.getD 1 →
      ∃ t2, s.compute_lr = Except.ok (s.withData (some t2))
        ∧ t2.cols = t.cols ++ ["Learning rate"]
        ∧ t2.rows = t.rows.map (fun r => (r.1, r.2 ++
            [some (lr /
              (((⌊(r.1 : ℚ) / ((j.learning_rate_decay_delta.getD 1 : ℤ) : ℚ)⌋ *
                  j.learning_rate_decay_delta.getD 1 : ℤ) : ℚ) /
                j.learning_rate_decay.getD 0 + 1))])))
    ∧ (j.learning_rate_decay.getD 0 = 0 →
      s.compute_lr = Except.ok (s.withData (some (t.addColByCell "Learning rate"
        (fun _ _ => some lr))))) := by
  constructor
  · intro hdec hdel
    refine ⟨t.addColByCell "Learning rate"
      (fun i _ => some (lr /
        (((Int.fdiv i (j.learning_rate_decay_delta.getD 1) *
            j.learning_rate_decay_delta.getD 1 : ℤ) : ℚ) /
          j.learning_rate_decay.getD 0 + 1))), ?_, rfl, ?_⟩
    · simp only [Session.compute_lr, hdata, hjson, hlr]
      rw [if_neg hcol, if_pos hdec]
    · unfold Table.addColByCell
      apply List.map_congr_left
      intro r hr
      simp only [fdiv_eq_floor _ _ hdel]
  · intro hdec
    simp only [Session.compute_lr, hdata, hjson, hlr]
    rw [if_neg hcol, if_neg (by rw [hdec]; exact lt_irrefl 0)]

theorem compute_lr_spec_witness :
    Session.compute_lr lrSession = Except.ok (lrSession.withData (some lrSessionOutT)) := by
  have h := (compute_lr_spec lrSession lrSessionT lrSessionJ (1/10)
    rfl rfl rfl (by decide)).2 rfl
  rw [h]
  rfl

/-- Claim C4: `compute_epoch` is a no-op when the "Epoch number"
column exists (so in particular a second call after a successful
computation changes nothing); with a known dataset it appends the
"Training point count" column divided by the training-set size; an
unknown dataset name, a missing "dataset" key or a missing JSON
configuration leaves the session unchanged. -/
theorem compute_epoch_spec (s : Session) (t : Table) (hdata : s.data = some t) :
    ("Epoch number" ∈ t.cols → s.compute_epoch = Except.ok s)
    ∧ (∀ j ds sz pos, "Epoch number" ∉ t.cols → s.json = some j →
        j.dataset = some ds → trainingSizeOf ds = some sz →
        t.colPos "Training point count" = some pos →
        s.compute_epoch = Except.ok (s.withData (some (t.addColByCell "Epoch number"
            (fun _ cells => (cellAt cells pos).map (fun v => v / sz)))))
        ∧ ∀ s2, s.compute_epoch = Except.ok s2 → s2.compute_epoch = Except.ok s2)
    ∧ (∀ j ds, "Epoch number" ∉ t.cols → s.json = some j → j.dataset = some ds →
        trainingSizeOf ds = none → s.compute_epoch = Except.ok s)
    ∧ (∀ j, "Epoch number" ∉ t.cols → s.json = some j → j.dataset = none →
        s.compute_epoch = Except.ok s)
    ∧ ("Epoch number" ∉ t.cols → s.json = none → s.compute_epoch = Except.ok s) := by
  refine ⟨?_, ?_, ?_, ?_, ?_⟩
  · intro hmem
    simp only [Session.compute_epoch, hdata]
    rw [if_pos hmem]
  · intro j ds sz pos hmem hjson hds hsz hpos
    have hrun : s.compute_epoch = Except.ok (s.withData (some (t.addColByCell "Epoch number"
        (fun _ cells => (cellAt cells pos).map (fun v => v / sz))))) := by
      simp only [Session.compute_epoch, hdata, hjson, hds, hsz, hpos]
      rw [if_neg hmem]
    refine ⟨hrun, ?_⟩
    intro s2 h2
    rw [hrun] at h2
    injection h2 with h3
    subst h3
    simp only [Session.compute_epoch, Session.withData]
    rw [if_pos (by simp [Table.addColByCell])]
  · intro j ds hmem hjson hds hsz
    simp only [Session.compute_epoch, hdata, hjson, hds, hsz]
    rw [if_neg hmem]
  · intro j hmem hjson hds
    simp only [Session.compute_epoch, hdata, hjson, hds]
    rw [if_neg hmem]
  · intro hmem hjson
    simp only [Session.compute_epoch, hdata, hjson]
    rw [if_neg hmem]

theorem compute_epoch_spec_witness :
    Session.compute_epoch epochSession =
      Except.ok (epochSession.withData (some epochSessionOutT)) := by
  have h := ((compute_epoch_spec epochSession epochSessionT rfl).2.1
    epochSessionJ "mnist" 60000 0 (by decide) rfl rfl rfl rfl).1
  rw [h]
  congr 1
  norm_num [Session.withData, epochSession, epochSessionT, epochSessionOutT,
    Table.addColByCell, cellAt]

/-- Claim C5 counterexample: the literal padded token `"     nan"` is
a declared missing-value marker for the `study` read but not for the
`eval` read — the `eval` `read_csv` call passes no `na_values`
argument, so the token survives parsing there. -/
theorem eval_read_nan_counterexample :
    parseCell evalReadArgs "     nan" = some "     nan"
    ∧ parseCell studyReadArgs "     nan" = none := by
  constructor <;> decide

/-- Claim C5 (amended): the `eval` log is read like the `study` log —
tab-separated, first column as the index, the index then renamed
"Step number" — except that the padded `"     nan"` literal is not
added to the missing-value markers: the `eval` read keeps only pandas'
default markers. -/
theorem eval_read_args_amended :
    evalReadArgs.sep = studyReadArgs.sep
    ∧ evalReadArgs.indexCol = studyReadArgs.indexCol
    ∧ studyReadArgs.extraNaValues = ["     nan"]
    ∧ evalReadArgs.extraNaValues = []
    ∧ (pandasDefaultNa.all (fun tok => (parseCell evalReadArgs tok).isNone)) = true
    ∧ sessionLoad evalOnlyDir = Except.ok evalOnlyOutSession := by
  refine ⟨rfl, rfl, rfl, rfl, by decide, rfl⟩

/-- Claim C6 counterexample: a `LinePlot` closed straight from the
Open state (never finalized) is a Closed instance, yet `include` and
`include_single` succeed on it instead of raising — the guard checks
only `_fin`, which `close` does not set. -/
theorem include_after_close_without_finalize :
    (LinePlot.close LinePlot.init).closed = true
    ∧ (LinePlot.close LinePlot.init).fin = false
    ∧ LinePlot.incl (LinePlot.close LinePlot.init) = Except.ok (LinePlot.close LinePlot.init)
    ∧ LinePlot.inclSingle (LinePlot.close LinePlot.init) =
        Except.ok (LinePlot.close LinePlot.init) :=
  ⟨rfl, rfl, rfl, rfl⟩

/-- Claim C6 (amended): `include` and `include_single` raise the
finalization `RuntimeError` exactly when the instance is finalized —
in particular on every instance that reached Closed through Finalized
— while an instance closed without being finalized is still accepted
by the guard. -/
theorem incl_error_iff_finalized (st : LPState) :
    (LinePlot.incl st =
        Except.error (PyExc.runtimeError
          "Plot is already finalized and cannot include another line")
      ↔ st.fin = true)
    ∧ (LinePlot.inclSingle st =
        Except.error (PyExc.runtimeError
          "Plot is already finalized and cannot include another line")
      ↔ st.fin = true) := by
  cases st with
  | mk fin closed => cases fin <;> simp [LinePlot.incl, LinePlot.inclSingle]

/-- Claim C7 (evaluation of the code at the failing input): a
finalized `HistPlot` accepts `include` without raising — the method
has no finalization guard, although `finalize`'s own docstring says it
"would prevent further inclusion". -/
theorem histplot_include_after_finalize_succeeds :
    (HistPlot.finalize HistPlot.init).fin = true
    ∧ HistPlot.incl (HistPlot.finalize HistPlot.init) =
        Except.ok (HistPlot.finalize HistPlot.init) :=
  ⟨rfl, rfl⟩

/-- Claim C8 counterexample: a path naming an existing plain file does
not name an existing directory, yet `Session.__init__` raises nothing
there — the line-196 check is `path_results.exists()`, which the file
passes; all four best-effort reads then fail and are swallowed, and a
session with every field absent is produced. -/
theorem session_file_path_counterexample :
    filePathDir.kind = PathKind.file
    ∧ pathExists filePathDir.kind = true
    ∧ sessionLoad filePathDir = Except.ok (sessionOf filePathDir none) :=
  ⟨rfl, rfl, rfl⟩

/-- Claim C8 (amended): only a path at which nothing exists at all
makes `Session(path)` raise — then with `tools.UserException`, a
user-facing error type distinct from the
`RuntimeError`/`AttributeError`/`KeyError` constructors used for
internal and I/O failures, and no session is produced; a path naming
an existing non-directory file passes the `exists()` check and yields
a session with all fields absent instead of raising. -/
theorem session_missing_dir_user_error (dir : ResultDir) :
    (pathExists dir.kind = false →
      sessionLoad dir = Except.error (PyExc.userException
        ("Result directory " ++ dir.pathStr ++ " cannot be accessed or does not exist")))
    ∧ (dir.kind = PathKind.file → dir.config = none → dir.configJson = none →
        dir.study = none → dir.eval = none →
      sessionLoad dir = Except.ok (sessionOf dir none)) := by
  constructor
  · intro h
    simp [sessionLoad, h]
  · intro hk hc hj hs he
    simp [sessionLoad, hk, hc, hj, hs, he, pathExists, mergeData]

theorem session_missing_dir_user_error_witness :
    sessionLoad missingDir = Except.error (PyExc.userException
      ("Result directory " ++ "results/gone" ++ " cannot be accessed or does not exist"))
    ∧ sessionLoad filePathDir = Except.ok (sessionOf filePathDir none) :=
  ⟨(session_missing_dir_user_error missingDir).1 rfl,
   (session_missing_dir_user_error filePathDir).2 rfl rfl rfl rfl rfl⟩

/-- Claim C9: with an accessible directory, a parsed `study` log and
no `eval` log give a session whose table is the study table with its
index renamed "Step number" (the JSON field is whatever the config
read produced, absent when that read failed); two parsed logs are
merged by `outerJoin`, whose key set is the sorted union of the two
indexes, whose columns are the study columns followed by the eval
columns, and in which a key present in only one log pads the other
log's columns with missing cells; two absent logs give an absent
table. -/
theorem session_merge_spec (dir : ResultDir) (hacc : pathExists dir.kind = true) :
    (∀ st, dir.study = some st → dir.eval = none →
      sessionLoad dir = Except.ok (sessionOf dir (some (setIndexName st))))
    ∧ (∀ a b, dir.study = some a → dir.eval = some b →
      sessionLoad dir = Except.ok (sessionOf dir
        (some (outerJoin (setIndexName a) (setIndexName b)))))
    ∧ (dir.study = none → dir.eval = none →
      sessionLoad dir = Except.ok (sessionOf dir none))
    ∧ (∀ a b : Table, (outerJoin a b).keys = sortedUnion a.keys b.keys
        ∧ (outerJoin a b).cols = a.cols ++ b.cols)
    ∧ (∀ (a b : Table) (k : Int) (row : List Cell), k ∈ a.keys → k ∉ b.keys →
        a.lookupRow k = some row →
        (k, row ++ List.replicate b.cols.length none) ∈ (outerJoin a b).rows)
    ∧ (∀ (a b : Table) (k : Int) (row : List Cell), k ∉ a.keys → k ∈ b.keys →
        b.lookupRow k = some row →
        (k, List.replicate a.cols.length none ++ row) ∈ (outerJoin a b).rows) := by
  refine ⟨?_, ?_, ?_, ?_, ?_, ?_⟩
  · intro st h1 h2
    simp [sessionLoad, hacc, h1, h2, mergeData]
  · intro a b h1 h2
    simp [sessionLoad, hacc, h1, h2, mergeData]
  · intro h1 h2
    simp [sessionLoad, hacc, h1, h2, mergeData]
  · intro a b
    constructor
    · simp only [outerJoin, Table.keys, List.map_map]
      exact List.map_id _
    · rfl
  · intro a b k row hka hkb hrow
    unfold outerJoin
    apply List.mem_map.mpr
    refine ⟨k, ?_, ?_⟩
    · exact (mem_sortedUnion k a.keys b.keys).mpr (Or.inl hka)
    · rw [hrow, lookupRow_eq_none b k hkb]
      rfl
  · intro a b k row hka hkb hrow
    unfold outerJoin
    apply List.mem_map.mpr
    refine ⟨k, ?_, ?_⟩
    · exact (mem_sortedUnion k a.keys b.keys).mpr (Or.inr hkb)
    · rw [hrow, lookupRow_eq_none a k hka]
      rfl

theorem session_merge_spec_witness :
    sessionLoad mergeDir = Except.ok mergeOutSession := by
  have h := (session_merge_spec mergeDir rfl).1 mergeStudyT rfl rfl
  rw [h]
  rfl

/-- Claim C10: with an absent merged table (`data` is `None`), each of
`compute_epoch`, `compute_lr` and `compute_all` raises
`AttributeError` by reading `.columns` off `None` before any
configuration check — whereas a missing JSON configuration with a
present table is handled by the warn-and-skip policy and leaves the
session unchanged. -/
theorem compute_missing_table_raises (s : Session) (h : s.data = none) :
    s.compute_epoch =
        Except.error (PyExc.attributeError "NoneType object has no attribute columns")
    ∧ s.compute_lr =
        Except.error (PyExc.attributeError "NoneType object has no attribute columns")
    ∧ s.compute_all =
        Except.error (PyExc.attributeError "NoneType object has no attribute columns")
    ∧ (∀ (s2 : Session) (t : Table), s2.data = some t → s2.json = none →
        s2.compute_epoch = Except.ok s2 ∧ s2.compute_lr = Except.ok s2) := by
  have he : s.compute_epoch =
      Except.error (PyExc.attributeError "NoneType object has no attribute columns") := by
    simp only [Session.compute_epoch, h]
  have hl : s.compute_lr =
      Except.error (PyExc.attributeError "NoneType object has no attribute columns") := by
    simp only [Session.compute_lr, h]
  refine ⟨he, hl, ?_, ?_⟩
  · unfold Session.compute_all
    rw [he]
    rfl
  · intro s2 t h2 hj
    constructor
    · simp only [Session.compute_epoch, h2, hj]
      split <;> rfl
    · simp only [Session.compute_lr, h2, hj]
      split <;> rfl

theorem compute_missing_table_raises_witness :
    Session.compute_epoch emptySession =
        Except.error (PyExc.attributeError "NoneType object has no attribute columns")
    ∧ Session.compute_lr emptySession =
        Except.error (PyExc.attributeError "NoneType object has no attribute columns")
    ∧ Session.compute_all emptySession =
        Except.error (PyExc.attributeError "NoneType object has no attribute columns") := by
  have h := compute_missing_table_raises emptySession rfl
  exact ⟨h.1, h.2.1, h.2.2.1⟩

end Histogram
